import Mathlib

/-!
Verification of the ESG-Platform derived-metrics computation, validation
rules and boundary handlers, shallowly embedded from the TypeScript source.

Numbers are modelled as exact rationals; a JavaScript null (or absent)
numeric field is modelled as the value none of Option. The tri-state
hasDataPrivacyPolicy field is an Option Bool.
-/

set_option maxRecDepth 100000

namespace ESGPlatform

/-- One year's ESG record: the eleven raw input fields together with the four
derived fields, exactly the shape of the TypeScript ESGData type (every field
nullable). -/
structure ESGData where
  totalElectricityConsumption : Option ℚ := none
  renewableElectricityConsumption : Option ℚ := none
  totalFuelConsumption : Option ℚ := none
  carbonEmissions : Option ℚ := none
  totalEmployees : Option ℚ := none
  femaleEmployees : Option ℚ := none
  averageTrainingHours : Option ℚ := none
  communityInvestment : Option ℚ := none
  independentBoardMembers : Option ℚ := none
  hasDataPrivacyPolicy : Option Bool := none
  totalRevenue : Option ℚ := none
  carbonIntensity : Option ℚ := none
  renewableElectricityRatio : Option ℚ := none
  diversityRatio : Option ℚ := none
  communitySpendRatio : Option ℚ := none
  deriving DecidableEq, Repr

/-- The four derived metrics that calculateESGMetrics produces (the
calculatedData object of src/utils/esgCalculations.ts, which sets exactly
these four keys). -/
structure ESGDerived where
  carbonIntensity : Option ℚ
  renewableElectricityRatio : Option ℚ
  diversityRatio : Option ℚ
  communitySpendRatio : Option ℚ
  deriving DecidableEq, Repr

/-- Embedding of calculateESGMetrics from src/utils/esgCalculations.ts: each
metric is computed when its two operands are non-null and its denominator is
non-zero, and is null otherwise. -/
def calculateESGMetrics (data : ESGData) : ESGDerived where
  carbonIntensity :=
    match data.carbonEmissions, data.totalRevenue with
    | some e, some r => if r ≠ 0 then some (e / r) else none
    | _, _ => none
  renewableElectricityRatio :=
    match data.renewableElectricityConsumption, data.totalElectricityConsumption with
    | some c, some t => if t ≠ 0 then some (100 * (c / t)) else none
    | _, _ => none
  diversityRatio :=
    match data.femaleEmployees, data.totalEmployees with
    | some f, some t => if t ≠ 0 then some (100 * (f / t)) else none
    | _, _ => none
  communitySpendRatio :=
    match data.communityInvestment, data.totalRevenue with
    | some c, some r => if r ≠ 0 then some (100 * (c / r)) else none
    | _, _ => none

/-- The specification's ratio contract: scale * numerator / denominator iff
both operands are non-null and the denominator is non-zero, else null. -/
def specRatio (scale : ℚ) (num den : Option ℚ) : Option ℚ :=
  num.bind fun n => den.bind fun d => if d ≠ 0 then some (scale * n / d) else none

/-- The Metrics Engine contract exactly as the specification words it, for
comparison with the implementation: carbonIntensity is the plain quotient
(scale 1) and the other three metrics are percentages (scale 100). -/
def specDerivedMetrics (R : ESGData) : ESGDerived where
  carbonIntensity := specRatio 1 R.carbonEmissions R.totalRevenue
  renewableElectricityRatio :=
    specRatio 100 R.renewableElectricityConsumption R.totalElectricityConsumption
  diversityRatio := specRatio 100 R.femaleEmployees R.totalEmployees
  communitySpendRatio := specRatio 100 R.communityInvestment R.totalRevenue

/-- A record with every raw field populated and internally consistent; its
derived fields are still unset. -/
def validSampleData : ESGData where
  totalElectricityConsumption := some 1000
  renewableElectricityConsumption := some 400
  totalFuelConsumption := some 10
  carbonEmissions := some 5
  totalEmployees := some 10
  femaleEmployees := some 4
  averageTrainingHours := some 8
  communityInvestment := some 50
  independentBoardMembers := some 100
  hasDataPrivacyPolicy := some true
  totalRevenue := some 1000

/-- Claim C1: for every raw record, calculateESGMetrics returns exactly the
four ratios of the specification — each metric is its division formula iff
both operands are non-null and the denominator is non-zero, and null
otherwise. -/
theorem calculateESGMetrics_matches_spec (R : ESGData) :
    calculateESGMetrics R = specDerivedMetrics R := by
  unfold calculateESGMetrics specDerivedMetrics specRatio
  simp only [ESGDerived.mk.injEq]
  refine ⟨?_, ?_, ?_, ?_⟩
  · cases he : R.carbonEmissions <;> cases hr : R.totalRevenue <;>
      simp [he, hr, mul_div_assoc]
  · cases hc : R.renewableElectricityConsumption <;>
      cases ht : R.totalElectricityConsumption <;> simp [hc, ht, mul_div_assoc]
  · cases hf : R.femaleEmployees <;> cases ht : R.totalEmployees <;>
      simp [hf, ht, mul_div_assoc]
  · cases hc : R.communityInvestment <;> cases hr : R.totalRevenue <;>
      simp [hc, hr, mul_div_assoc]

/-- Claim C3: calculateESGMetrics is total (it is a Lean function), its
values range over Option of the rationals (so a derived field is a finite
number or null, never NaN or Infinity), and a derived field is null exactly
when an operand is missing or the denominator is zero. -/
theorem calculateESGMetrics_null_iff (R : ESGData) :
    ((calculateESGMetrics R).carbonIntensity = none ↔
      R.carbonEmissions = none ∨ R.totalRevenue = none ∨ R.totalRevenue = some 0) ∧
    ((calculateESGMetrics R).renewableElectricityRatio = none ↔
      R.renewableElectricityConsumption = none ∨ R.totalElectricityConsumption = none ∨
        R.totalElectricityConsumption = some 0) ∧
    ((calculateESGMetrics R).diversityRatio = none ↔
      R.femaleEmployees = none ∨ R.totalEmployees = none ∨ R.totalEmployees = some 0) ∧
    ((calculateESGMetrics R).communitySpendRatio = none ↔
      R.communityInvestment = none ∨ R.totalRevenue = none ∨ R.totalRevenue = some 0) := by
  unfold calculateESGMetrics
  refine ⟨?_, ?_, ?_, ?_⟩
  · cases he : R.carbonEmissions <;> cases hr : R.totalRevenue <;> simp
  · cases hc : R.renewableElectricityConsumption <;>
      cases ht : R.totalElectricityConsumption <;> simp
  · cases hf : R.femaleEmployees <;> cases ht : R.totalEmployees <;> simp
  · cases hc : R.communityInvestment <;> cases hr : R.totalRevenue <;> simp

/-- Claim C10: the Metrics Engine is deterministic — two applications to the
same raw record yield identical derived outputs (the embedded function has no
hidden state). -/
theorem calculateESGMetrics_deterministic (R S : ESGData) (h : R = S) :
    calculateESGMetrics R = calculateESGMetrics S := by
  rw [h]

/-- Witness for C10 at a concrete record. -/
theorem calculateESGMetrics_deterministic_witness :
    calculateESGMetrics validSampleData = calculateESGMetrics validSampleData :=
  calculateESGMetrics_deterministic validSampleData validSampleData rfl

/-! ## Validation rules (handleSubmit of src/components/esg/ESGForm.tsx) -/

/-- The field identifiers of the ESG questionnaire, i.e. the keys of ESGData
as the validation code names them. -/
inductive Field where
  | totalElectricityConsumption
  | renewableElectricityConsumption
  | totalFuelConsumption
  | carbonEmissions
  | totalEmployees
  | femaleEmployees
  | averageTrainingHours
  | communityInvestment
  | independentBoardMembers
  | hasDataPrivacyPolicy
  | totalRevenue
  | carbonIntensity
  | renewableElectricityRatio
  | diversityRatio
  | communitySpendRatio
  deriving DecidableEq, Repr

/-- The user-facing labels of getFieldLabel in ESGForm.tsx. -/
def getFieldLabel : Field → String
  | .totalElectricityConsumption => "Total Electricity Consumption (kWh)"
  | .renewableElectricityConsumption => "Renewable Electricity Consumption (kWh)"
  | .totalFuelConsumption => "Total Fuel Consumption (liters)"
  | .carbonEmissions => "Carbon Emissions (T CO2e)"
  | .totalEmployees => "Total Number of Employees"
  | .femaleEmployees => "Number of Female Employees"
  | .averageTrainingHours => "Average Training Hours per Employee (per year)"
  | .communityInvestment => "Community Investment Spend (INR)"
  | .independentBoardMembers => "% of Independent Board Members"
  | .hasDataPrivacyPolicy => "Data Privacy Policy"
  | .totalRevenue => "Total Revenue (INR)"
  | .carbonIntensity => "Carbon Intensity"
  | .renewableElectricityRatio => "Renewable Electricity Ratio"
  | .diversityRatio => "Diversity Ratio"
  | .communitySpendRatio => "Community Spend Ratio"

/-- A validation violation for one year: the offending field and its
message, as pushed onto the errors array. -/
abbrev VError := Field × String

/-- Numeric lookup yearData of a field: every numeric key of ESGData maps to
its value; the boolean hasDataPrivacyPolicy never occurs in the numeric rule
lists of the code and is mapped to none here. -/
def numField (d : ESGData) : Field → Option ℚ
  | .totalElectricityConsumption => d.totalElectricityConsumption
  | .renewableElectricityConsumption => d.renewableElectricityConsumption
  | .totalFuelConsumption => d.totalFuelConsumption
  | .carbonEmissions => d.carbonEmissions
  | .totalEmployees => d.totalEmployees
  | .femaleEmployees => d.femaleEmployees
  | .averageTrainingHours => d.averageTrainingHours
  | .communityInvestment => d.communityInvestment
  | .independentBoardMembers => d.independentBoardMembers
  | .hasDataPrivacyPolicy => none
  | .totalRevenue => d.totalRevenue
  | .carbonIntensity => d.carbonIntensity
  | .renewableElectricityRatio => d.renewableElectricityRatio
  | .diversityRatio => d.diversityRatio
  | .communitySpendRatio => d.communitySpendRatio

/-- The ten required fields of handleSubmit (hasDataPrivacyPolicy excluded:
it has its own rule). -/
def requiredFields : List Field :=
  [.totalElectricityConsumption, .renewableElectricityConsumption,
   .totalFuelConsumption, .carbonEmissions, .totalEmployees, .femaleEmployees,
   .averageTrainingHours, .communityInvestment, .independentBoardMembers,
   .totalRevenue]

/-- The six fields handleSubmit requires to be non-negative when present. -/
def nonNegativeFields : List Field :=
  [.renewableElectricityConsumption, .totalFuelConsumption, .carbonEmissions,
   .communityInvestment, .totalRevenue, .independentBoardMembers]

/-- The message of a required-field violation. -/
def requiredMessage (f : Field) : String :=
  getFieldLabel f ++ " is required. Please enter a value (use 0 if applicable)."

/-- The message of a non-negativity violation. -/
def nonNegMessage (f : Field) : String :=
  getFieldLabel f ++ " must be greater than or equal to 0."

/-- The message of the data-privacy-policy rule. -/
def privacyMessage : String :=
  "Please select an option for \"Does the company have a data privacy policy?\"."

/-- Rule group 1 of handleSubmit: every required field that is null yields a
violation. -/
def requiredErrors (d : ESGData) : List VError :=
  requiredFields.filterMap fun f =>
    if numField d f = none then some (f, requiredMessage f) else none

/-- Rule group 2 of handleSubmit: every present negative value of a
non-negative field yields a violation. -/
def nonNegativeErrors (d : ESGData) : List VError :=
  nonNegativeFields.filterMap fun f =>
    match numField d f with
    | some v => if v < 0 then some (f, nonNegMessage f) else none
    | none => none

/-- Rule group 3 of handleSubmit: hasDataPrivacyPolicy must be exactly true
or exactly false. -/
def privacyErrors (d : ESGData) : List VError :=
  if d.hasDataPrivacyPolicy ≠ some true ∧ d.hasDataPrivacyPolicy ≠ some false then
    [(Field.hasDataPrivacyPolicy, privacyMessage)]
  else []

/-- Rule group 4 of handleSubmit (special cases): strict positivity of
totalElectricityConsumption and averageTrainingHours; strict positivity and
integrality of totalEmployees and femaleEmployees (the integrality branch is
reached only when the value is positive, mirroring the else-if). -/
def specialErrors (d : ESGData) : List VError :=
  (match d.totalElectricityConsumption with
   | some v =>
     if v ≤ 0 then
       [(Field.totalElectricityConsumption,
         "Total Electricity Consumption (kWh) must be greater than 0.")]
     else []
   | none => []) ++
  (match d.averageTrainingHours with
   | some v =>
     if v ≤ 0 then
       [(Field.averageTrainingHours,
         "Average Training Hours per Employee (per year) must be greater than 0.")]
     else []
   | none => []) ++
  (match d.totalEmployees with
   | some v =>
     if v ≤ 0 then
       [(Field.totalEmployees, "Total Number of Employees must be greater than 0.")]
     else if v.den ≠ 1 then
       [(Field.totalEmployees, "Total Number of Employees must be a whole number (integer).")]
     else []
   | none => []) ++
  (match d.femaleEmployees with
   | some v =>
     if v ≤ 0 then
       [(Field.femaleEmployees, "Number of Female Employees must be greater than 0.")]
     else if v.den ≠ 1 then
       [(Field.femaleEmployees, "Number of Female Employees must be a whole number (integer).")]
     else []
   | none => [])

/-- Rule group 5 of handleSubmit: the four cross-field constraints. -/
def crossFieldErrors (d : ESGData) : List VError :=
  (match d.femaleEmployees, d.totalEmployees with
   | some f, some t =>
     if t < f then
       [(Field.femaleEmployees,
         "Number of female employees cannot be greater than total employees.")]
     else []
   | _, _ => []) ++
  (match d.renewableElectricityConsumption, d.totalElectricityConsumption with
   | some r, some t =>
     if t < r then
       [(Field.renewableElectricityConsumption,
         "Renewable electricity consumption cannot be greater than total electricity consumption.")]
     else []
   | _, _ => []) ++
  (match d.communityInvestment, d.totalRevenue with
   | some c, some r =>
     if r < c then
       [(Field.communityInvestment,
         "Community investment spend cannot be greater than total revenue.")]
     else []
   | _, _ => []) ++
  (match d.independentBoardMembers with
   | some v =>
     if v < 0 ∨ 100 < v then
       [(Field.independentBoardMembers,
         "% of independent board members must be between 0 and 100.")]
     else []
   | none => [])

/-- All violations of one year's record, in the order handleSubmit pushes
them. -/
def validateYear (d : ESGData) : List VError :=
  requiredErrors d ++ nonNegativeErrors d ++ privacyErrors d ++
    specialErrors d ++ crossFieldErrors d

/-- The violations of a whole form, tagged with their year. -/
def collectErrors (form : List (Int × ESGData)) : List (Int × VError) :=
  form.flatMap fun p => (validateYear p.2).map fun e => (p.1, e)

/-- The pre-submit merge of handleSubmit: the computed metrics overwrite the
record's four derived fields (spread of calculatedMetrics over yearData). -/
def mergeCalculated (d : ESGData) : ESGData :=
  let m := calculateESGMetrics d
  { d with carbonIntensity := m.carbonIntensity,
           renewableElectricityRatio := m.renewableElectricityRatio,
           diversityRatio := m.diversityRatio,
           communitySpendRatio := m.communitySpendRatio }

/-- The submission gate of handleSubmit: onSubmit receives the enriched data
exactly when the collected violation list is empty; otherwise submission
stops. -/
def handleSubmit (form : List (Int × ESGData)) : Option (List (Int × ESGData)) :=
  if collectErrors form = [] then
    some (form.map fun p => (p.1, mergeCalculated p.2))
  else none

theorem mem_validateYear_of_required {d : ESGData} {e : VError}
    (h : e ∈ requiredErrors d) : e ∈ validateYear d := by
  unfold validateYear
  exact List.mem_append_left _ (List.mem_append_left _
    (List.mem_append_left _ (List.mem_append_left _ h)))

theorem mem_validateYear_of_nonNegative {d : ESGData} {e : VError}
    (h : e ∈ nonNegativeErrors d) : e ∈ validateYear d := by
  unfold validateYear
  exact List.mem_append_left _ (List.mem_append_left _
    (List.mem_append_left _ (List.mem_append_right _ h)))

theorem mem_validateYear_of_privacy {d : ESGData} {e : VError}
    (h : e ∈ privacyErrors d) : e ∈ validateYear d := by
  unfold validateYear
  exact List.mem_append_left _ (List.mem_append_left _ (List.mem_append_right _ h))

theorem mem_validateYear_of_special {d : ESGData} {e : VError}
    (h : e ∈ specialErrors d) : e ∈ validateYear d := by
  unfold validateYear
  exact List.mem_append_left _ (List.mem_append_right _ h)

theorem mem_validateYear_of_crossField {d : ESGData} {e : VError}
    (h : e ∈ crossFieldErrors d) : e ∈ validateYear d := by
  unfold validateYear
  exact List.mem_append_right _ h

/-- A record violating three independent rules: negative totalRevenue, zero
totalElectricityConsumption, unset hasDataPrivacyPolicy. -/
def tripleViolationData : ESGData :=
  { validSampleData with
      totalRevenue := some (-5)
      totalElectricityConsumption := some 0
      hasDataPrivacyPolicy := none }

/-- A record with more female employees than total employees. -/
def femaleMajorityData : ESGData :=
  { validSampleData with femaleEmployees := some 50, totalEmployees := some 40 }

/-- A record with independentBoardMembers just above 100. -/
def ibmHighData : ESGData :=
  { validSampleData with independentBoardMembers := some (10001 / 100) }

/-- A record with independentBoardMembers just below 0. -/
def ibmNegData : ESGData :=
  { validSampleData with independentBoardMembers := some (-(1 / 10000)) }

/-- A record with totalElectricityConsumption equal to zero. -/
def tecZeroData : ESGData :=
  { validSampleData with totalElectricityConsumption := some 0 }

/-- A record with averageTrainingHours equal to zero. -/
def athZeroData : ESGData :=
  { validSampleData with averageTrainingHours := some 0 }

/-- A record with totalEmployees equal to zero. -/
def teZeroData : ESGData :=
  { validSampleData with totalEmployees := some 0 }

/-- A record with femaleEmployees equal to zero. -/
def feZeroData : ESGData :=
  { validSampleData with femaleEmployees := some 0 }

/-- Claim C4: validation evaluates every rule and collects all violations —
submission proceeds to onSubmit exactly when the collected violation list is
empty, and a record violating three independent rules yields at least three
violations. -/
theorem validation_collects_all (form : List (Int × ESGData)) :
    ((handleSubmit form).isSome ↔ collectErrors form = []) ∧
    3 ≤ (validateYear tripleViolationData).length := by
  constructor
  · unfold handleSubmit
    split <;> simp_all
  · with_unfolding_all decide

/-- Claim C5: the four cross-field ordering constraints each produce a
violation whenever both operands are present and the constraint fails, a
fully consistent record with independentBoardMembers = 100 passes with no
violation, 100.01 and -0.0001 are rejected, and femaleEmployees = 50 with
totalEmployees = 40 yields a femaleEmployees violation. -/
theorem crossField_rules (d : ESGData) :
    (∀ f t, d.femaleEmployees = some f → d.totalEmployees = some t → t < f →
      (Field.femaleEmployees,
        "Number of female employees cannot be greater than total employees.") ∈
        validateYear d) ∧
    (∀ r t, d.renewableElectricityConsumption = some r →
      d.totalElectricityConsumption = some t → t < r →
      (Field.renewableElectricityConsumption,
        "Renewable electricity consumption cannot be greater than total electricity consumption.") ∈
        validateYear d) ∧
    (∀ c r, d.communityInvestment = some c → d.totalRevenue = some r → r < c →
      (Field.communityInvestment,
        "Community investment spend cannot be greater than total revenue.") ∈
        validateYear d) ∧
    (∀ v, d.independentBoardMembers = some v → (v < 0 ∨ 100 < v) →
      (Field.independentBoardMembers,
        "% of independent board members must be between 0 and 100.") ∈
        validateYear d) ∧
    validateYear validSampleData = [] ∧
    (Field.independentBoardMembers,
      "% of independent board members must be between 0 and 100.") ∈
      validateYear ibmHighData ∧
    (Field.independentBoardMembers,
      "% of independent board members must be between 0 and 100.") ∈
      validateYear ibmNegData ∧
    (Field.femaleEmployees,
      "Number of female employees cannot be greater than total employees.") ∈
      validateYear femaleMajorityData := by
  refine ⟨?_, ?_, ?_, ?_, ?_, ?_, ?_, ?_⟩
  · intro f t hf ht hlt
    exact mem_validateYear_of_crossField (by simp [crossFieldErrors, hf, ht, hlt])
  · intro r t hr ht hlt
    exact mem_validateYear_of_crossField (by simp [crossFieldErrors, hr, ht, hlt])
  · intro c r hc hr hlt
    exact mem_validateYear_of_crossField (by simp [crossFieldErrors, hc, hr, hlt])
  · intro v hv hrange
    refine mem_validateYear_of_crossField ?_
    rcases hrange with h | h <;> simp [crossFieldErrors, hv, h]
  · with_unfolding_all decide
  · with_unfolding_all decide
  · with_unfolding_all decide
  · with_unfolding_all decide

/-- Claim C6: the strict-positivity and integrality rules — a present
totalElectricityConsumption or averageTrainingHours that is not positive, or
a present totalEmployees or femaleEmployees that is not positive or (when
positive) not integral, each yields its violation; in particular the value
zero is rejected for all four fields. -/
theorem strictPositivity_rules (d : ESGData) :
    (∀ v, d.totalElectricityConsumption = some v → v ≤ 0 →
      (Field.totalElectricityConsumption,
        "Total Electricity Consumption (kWh) must be greater than 0.") ∈ validateYear d) ∧
    (∀ v, d.averageTrainingHours = some v → v ≤ 0 →
      (Field.averageTrainingHours,
        "Average Training Hours per Employee (per year) must be greater than 0.") ∈
        validateYear d) ∧
    (∀ v, d.totalEmployees = some v → v ≤ 0 →
      (Field.totalEmployees, "Total Number of Employees must be greater than 0.") ∈
        validateYear d) ∧
    (∀ v, d.totalEmployees = some v → 0 < v → v.den ≠ 1 →
      (Field.totalEmployees, "Total Number of Employees must be a whole number (integer).") ∈
        validateYear d) ∧
    (∀ v, d.femaleEmployees = some v → v ≤ 0 →
      (Field.femaleEmployees, "Number of Female Employees must be greater than 0.") ∈
        validateYear d) ∧
    (∀ v, d.femaleEmployees = some v → 0 < v → v.den ≠ 1 →
      (Field.femaleEmployees, "Number of Female Employees must be a whole number (integer).") ∈
        validateYear d) ∧
    (Field.totalElectricityConsumption,
      "Total Electricity Consumption (kWh) must be greater than 0.") ∈
      validateYear tecZeroData ∧
    (Field.averageTrainingHours,
      "Average Training Hours per Employee (per year) must be greater than 0.") ∈
      validateYear athZeroData ∧
    (Field.totalEmployees, "Total Number of Employees must be greater than 0.") ∈
      validateYear teZeroData ∧
    (Field.femaleEmployees, "Number of Female Employees must be greater than 0.") ∈
      validateYear feZeroData := by
  refine ⟨?_, ?_, ?_, ?_, ?_, ?_, ?_, ?_, ?_, ?_⟩
  · intro v hv hle
    exact mem_validateYear_of_special (by simp [specialErrors, hv, hle])
  · intro v hv hle
    exact mem_validateYear_of_special (by simp [specialErrors, hv, hle])
  · intro v hv hle
    exact mem_validateYear_of_special (by simp [specialErrors, hv, hle])
  · intro v hv hpos hden
    exact mem_validateYear_of_special
      (by simp [specialErrors, hv, not_le.mpr hpos, hden])
  · intro v hv hle
    exact mem_validateYear_of_special (by simp [specialErrors, hv, hle])
  · intro v hv hpos hden
    exact mem_validateYear_of_special
      (by simp [specialErrors, hv, not_le.mpr hpos, hden])
  · with_unfolding_all decide
  · with_unfolding_all decide
  · with_unfolding_all decide
  · with_unfolding_all decide

/-- Claim C7: every one of the ten required raw fields that is null yields a
required-field violation, and an unset hasDataPrivacyPolicy (neither exactly
true nor exactly false) yields its own distinct violation. -/
theorem required_rules (d : ESGData) :
    (d.totalElectricityConsumption = none →
      (Field.totalElectricityConsumption, requiredMessage .totalElectricityConsumption) ∈
        validateYear d) ∧
    (d.renewableElectricityConsumption = none →
      (Field.renewableElectricityConsumption, requiredMessage .renewableElectricityConsumption) ∈
        validateYear d) ∧
    (d.totalFuelConsumption = none →
      (Field.totalFuelConsumption, requiredMessage .totalFuelConsumption) ∈ validateYear d) ∧
    (d.carbonEmissions = none →
      (Field.carbonEmissions, requiredMessage .carbonEmissions) ∈ validateYear d) ∧
    (d.totalEmployees = none →
      (Field.totalEmployees, requiredMessage .totalEmployees) ∈ validateYear d) ∧
    (d.femaleEmployees = none →
      (Field.femaleEmployees, requiredMessage .femaleEmployees) ∈ validateYear d) ∧
    (d.averageTrainingHours = none →
      (Field.averageTrainingHours, requiredMessage .averageTrainingHours) ∈ validateYear d) ∧
    (d.communityInvestment = none →
      (Field.communityInvestment, requiredMessage .communityInvestment) ∈ validateYear d) ∧
    (d.independentBoardMembers = none →
      (Field.independentBoardMembers, requiredMessage .independentBoardMembers) ∈
        validateYear d) ∧
    (d.totalRevenue = none →
      (Field.totalRevenue, requiredMessage .totalRevenue) ∈ validateYear d) ∧
    (d.hasDataPrivacyPolicy ≠ some true → d.hasDataPrivacyPolicy ≠ some false →
      (Field.hasDataPrivacyPolicy, privacyMessage) ∈ validateYear d) := by
  refine ⟨?_, ?_, ?_, ?_, ?_, ?_, ?_, ?_, ?_, ?_, ?_⟩
  · intro h
    exact mem_validateYear_of_required (List.mem_filterMap.mpr
      ⟨.totalElectricityConsumption, by decide, by simp [numField, h]⟩)
  · intro h
    exact mem_validateYear_of_required (List.mem_filterMap.mpr
      ⟨.renewableElectricityConsumption, by decide, by simp [numField, h]⟩)
  · intro h
    exact mem_validateYear_of_required (List.mem_filterMap.mpr
      ⟨.totalFuelConsumption, by decide, by simp [numField, h]⟩)
  · intro h
    exact mem_validateYear_of_required (List.mem_filterMap.mpr
      ⟨.carbonEmissions, by decide, by simp [numField, h]⟩)
  · intro h
    exact mem_validateYear_of_required (List.mem_filterMap.mpr
      ⟨.totalEmployees, by decide, by simp [numField, h]⟩)
  · intro h
    exact mem_validateYear_of_required (List.mem_filterMap.mpr
      ⟨.femaleEmployees, by decide, by simp [numField, h]⟩)
  · intro h
    exact mem_validateYear_of_required (List.mem_filterMap.mpr
      ⟨.averageTrainingHours, by decide, by simp [numField, h]⟩)
  · intro h
    exact mem_validateYear_of_required (List.mem_filterMap.mpr
      ⟨.communityInvestment, by decide, by simp [numField, h]⟩)
  · intro h
    exact mem_validateYear_of_required (List.mem_filterMap.mpr
      ⟨.independentBoardMembers, by decide, by simp [numField, h]⟩)
  · intro h
    exact mem_validateYear_of_required (List.mem_filterMap.mpr
      ⟨.totalRevenue, by decide, by simp [numField, h]⟩)
  · intro h1 h2
    exact mem_validateYear_of_privacy (by simp [privacyErrors, h1, h2])

/-! ## POST api responses (src/app/api/responses/route.ts) -/

/-- One entry of the request body's responses object, after the handler's
parseInt on the year key: none models a key that parses to NaN. -/
structure PostEntry where
  yearKey : Option Int
  esgData : ESGData
  deriving DecidableEq, Repr

/-- The handler's hasData guard: at least one field of the entry is non-null
(Object.values over every key of the record). -/
def hasData (d : ESGData) : Bool :=
  d.totalElectricityConsumption.isSome || d.renewableElectricityConsumption.isSome ||
  d.totalFuelConsumption.isSome || d.carbonEmissions.isSome ||
  d.totalEmployees.isSome || d.femaleEmployees.isSome ||
  d.averageTrainingHours.isSome || d.communityInvestment.isSome ||
  d.independentBoardMembers.isSome || d.hasDataPrivacyPolicy.isSome ||
  d.totalRevenue.isSome || d.carbonIntensity.isSome ||
  d.renewableElectricityRatio.isSome || d.diversityRatio.isSome ||
  d.communitySpendRatio.isSome

/-- The entries the POST handler turns into upsert operations: entries whose
year key parsed and whose data is non-empty; the stored row carries the
client's fifteen fields verbatim (prismaData copies raw and calculated
fields alike). -/
def validYearEntries (entries : List PostEntry) : List (Int × ESGData) :=
  entries.filterMap fun e =>
    match e.yearKey with
    | none => none
    | some y => if hasData e.esgData then some (y, e.esgData) else none

/-- The response of the POST handler past authentication and body-shape
checks. -/
inductive PostOutcome where
  | badRequest (error : String)
  | ok (count : Nat)
  deriving DecidableEq, Repr

/-- The POST handler past authentication and body-shape checks: it upserts
every valid year entry verbatim and answers 400 when there is none, else 200
with the number of upserts performed. -/
def postResponses (entries : List PostEntry) : PostOutcome × List (Int × ESGData) :=
  if (validYearEntries entries).length = 0 then
    (.badRequest "No valid ESG data provided to save.", [])
  else
    (.ok (validYearEntries entries).length, validYearEntries entries)

/-- The four derived columns of a stored row. -/
def storedDerived (d : ESGData) : ESGDerived :=
  ⟨d.carbonIntensity, d.renewableElectricityRatio, d.diversityRatio, d.communitySpendRatio⟩

/-- A request entry whose derived carbonIntensity field was set by the client
to 42, inconsistent with its own raw fields (5 / 1000). -/
def tamperedData : ESGData :=
  { carbonEmissions := some 5, totalRevenue := some 1000, carbonIntensity := some 42 }

/-- Counterexample to claim C2 as stated: the POST handler stores the
client-supplied derived fields verbatim, so a record reachable through the
save operation can hold a carbonIntensity different from the Metrics Engine
applied to its own raw fields — the upsert itself never invokes the engine. -/
theorem post_stores_client_derived_verbatim :
    postResponses [⟨some 2023, tamperedData⟩] =
      (.ok 1, [(2023, tamperedData)]) ∧
    storedDerived tamperedData ≠ calculateESGMetrics tamperedData := by
  constructor
  · with_unfolding_all decide
  · with_unfolding_all decide

/-- Claim C2 as amended: records saved through the form flow do satisfy the
invariant — whenever handleSubmit lets a form through, every year record of
the submitted payload carries derived fields equal to the Metrics Engine
applied to that same record (the form invokes the engine and merges its
output over the raw fields before the POST). -/
theorem handleSubmit_derived_consistent (form payload : List (Int × ESGData))
    (h : handleSubmit form = some payload) :
    ∀ p ∈ payload, storedDerived p.2 = calculateESGMetrics p.2 := by
  unfold handleSubmit at h
  split at h
  · rw [Option.some.injEq] at h
    subst h
    intro p hp
    obtain ⟨q, _, rfl⟩ := List.mem_map.mp hp
    rfl
  · exact absurd h (by simp)

/-- Witness for the amended C2 at a concrete valid form. -/
theorem handleSubmit_derived_consistent_witness :
    storedDerived (mergeCalculated validSampleData) =
      calculateESGMetrics (mergeCalculated validSampleData) :=
  handleSubmit_derived_consistent [(2023, validSampleData)]
    [(2023, mergeCalculated validSampleData)]
    (by with_unfolding_all decide)
    (2023, mergeCalculated validSampleData) (List.mem_singleton.mpr rfl)

/-- Claim C9: when every entry of the responses object has a non-numeric
year key or holds no non-null field, the handler performs no upsert and
answers 400 with the literal error text; and whenever it answers 200 with a
count, at least one year was upserted and the count is the number of year
rows written. -/
theorem postResponses_rejects_empty (entries : List PostEntry) :
    ((∀ e ∈ entries, e.yearKey = none ∨ hasData e.esgData = false) →
      postResponses entries = (.badRequest "No valid ESG data provided to save.", [])) ∧
    (∀ c ups, postResponses entries = (.ok c, ups) → c = ups.length ∧ 1 ≤ c) := by
  constructor
  · intro h
    have hnil : validYearEntries entries = [] := by
      refine List.filterMap_eq_nil_iff.mpr fun e he => ?_
      rcases h e he with hy | hd
      · simp [hy]
      · cases hk : e.yearKey <;> simp [hk, hd]
    unfold postResponses
    rw [hnil]
    rfl
  · intro c ups h
    unfold postResponses at h
    split at h
    · exact absurd h (by simp)
    · next hne =>
      rw [Prod.mk.injEq, PostOutcome.ok.injEq] at h
      obtain ⟨h1, h2⟩ := h
      subst h1
      subst h2
      exact ⟨rfl, by omega⟩

/-! ## POST api auth login (src/app/api/auth/login/route.ts) -/

/-- A stored user row (the Prisma User model: id, name, unique email, hashed
password). -/
structure User where
  id : String
  name : String
  email : String
  password : String
  deriving DecidableEq, Repr

/-- The HTTP response of the login handler. -/
structure LoginResponse where
  status : Nat
  error : Option String
  token : Option String
  user : Option (String × String × String)
  deriving DecidableEq, Repr

/-- prisma.user.findUnique on the unique email column, over an abstract user
table. -/
def findUserByEmail (db : List User) (email : String) : Option User :=
  db.find? fun u => u.email == email

/-- The login handler: the bcrypt compare and the JWT signing are abstract
parameters (verify, genToken); an empty string models a missing or falsy
body field. -/
def loginPOST (db : List User) (verify : String → String → Bool)
    (genToken : String → String) (email pw : String) : LoginResponse :=
  if email = "" ∨ pw = "" then
    { status := 400, error := some "Email and password are required.",
      token := none, user := none }
  else
    match findUserByEmail db email with
    | none =>
      { status := 401, error := some "Invalid credentials.", token := none, user := none }
    | some u =>
      if verify pw u.password then
        { status := 200, error := none, token := some (genToken u.id),
          user := some (u.id, u.name, u.email) }
      else
        { status := 401, error := some "Invalid credentials.", token := none, user := none }

/-- Claim C8: login failure never reveals whether an email exists — a request
for a non-existent email and a request for an existing email with a wrong
password produce byte-identical responses: status 401 and the generic body
Invalid credentials. -/
theorem login_no_email_oracle (db : List User) (verify : String → String → Bool)
    (genToken : String → String) (e1 p1 e2 p2 : String) (u : User)
    (h1e : e1 ≠ "") (h1p : p1 ≠ "") (h2e : e2 ≠ "") (h2p : p2 ≠ "")
    (hmiss : findUserByEmail db e1 = none)
    (hhit : findUserByEmail db e2 = some u)
    (hwrong : verify p2 u.password = false) :
    loginPOST db verify genToken e1 p1 = loginPOST db verify genToken e2 p2 ∧
    (loginPOST db verify genToken e1 p1).status = 401 ∧
    (loginPOST db verify genToken e1 p1).error = some "Invalid credentials." := by
  have r1 : loginPOST db verify genToken e1 p1 =
      { status := 401, error := some "Invalid credentials.", token := none, user := none } := by
    unfold loginPOST
    rw [if_neg (by simp [h1e, h1p]), hmiss]
  have r2 : loginPOST db verify genToken e2 p2 =
      { status := 401, error := some "Invalid credentials.", token := none, user := none } := by
    unfold loginPOST
    rw [if_neg (by simp [h2e, h2p]), hhit]
    simp [hwrong]
  exact ⟨r1.trans r2.symm, by rw [r1], by rw [r1]⟩

/-- A one-row user table for the C8 witness. -/
def sampleDb : List User :=
  [{ id := "u1", name := "A B", email := "a@b.com", password := "hashed" }]

/-- Witness for C8: concrete non-existent-email and wrong-password requests
against the sample table receive the same generic 401 response. -/
theorem login_no_email_oracle_witness :
    loginPOST sampleDb (fun _ _ => false) (fun _ => "tok") "x@y.com" "pw" =
      loginPOST sampleDb (fun _ _ => false) (fun _ => "tok") "a@b.com" "wrong" ∧
    (loginPOST sampleDb (fun _ _ => false) (fun _ => "tok") "x@y.com" "pw").status = 401 ∧
    (loginPOST sampleDb (fun _ _ => false) (fun _ => "tok") "x@y.com" "pw").error =
      some "Invalid credentials." :=
  login_no_email_oracle sampleDb (fun _ _ => false) (fun _ => "tok")
    "x@y.com" "pw" "a@b.com" "wrong"
    { id := "u1", name := "A B", email := "a@b.com", password := "hashed" }
    (by decide) (by decide) (by decide) (by decide)
    (by with_unfolding_all decide) (by with_unfolding_all decide) rfl

end ESGPlatform
